import Mathlib

/-!
Verification development for the Magma Modular Proxy handshake engine
(`src/main.rs`).  Byte streams are modelled as `List Nat` (each element a
byte value < 256), Rust `i16`/`i32` values as `Int`, `usize` as `Nat` with
explicit two's-complement wrapping where the source can overflow, and every
fallible or panicking operation as an `Option` (with `none` marking the
panic / early-`?`-return).
-/

namespace Magma

/-- Big-endian signed 16-bit view of two bytes, as `Bytes::get_i16` produces. -/
def getI16 (b1 b2 : Nat) : Int :=
  let u := (b1 % 256) * 256 + b2 % 256
  if u < 0x8000 then (u : Int) else (u : Int) - 0x10000

/-- Big-endian signed 32-bit view of four bytes, as `Bytes::get_i32` produces. -/
def getI32 (b1 b2 b3 b4 : Nat) : Int :=
  let u := (b1 % 256) * 0x1000000 + (b2 % 256) * 0x10000 + (b3 % 256) * 256 + b4 % 256
  if u < 0x80000000 then (u : Int) else (u : Int) - 0x100000000

/-- Rust `i16 as usize`: non-negative values embed, negative values
sign-extend to a huge unsigned value (two's complement in 64 bits). -/
def i16AsUsize (v : Int) : Nat :=
  if 0 ≤ v then v.toNat else (v + 2 ^ 64).toNat

/-- Rust `usize` subtraction `n - 3` with release-mode wrapping semantics
(the source computes `read_count - 3`). -/
def usizeSub3 (n : Nat) : Nat :=
  if 3 ≤ n then n - 3 else n + (2 ^ 64 - 3)

def SEGMENT_BITS : Nat := 0x7f
def CONTINUE_BIT : Nat := 0x80

/-- Loop body of `read_var_int`: accumulate 7 bits per byte into a `u32`
(`% 2^32` models the `u32` OR/shift), stop on a clear continuation bit,
and panic (`none`) when the position would reach 32, exactly as the
source's `panic!("VarInt is too big")`.  Reading from an exhausted buffer
(`get_u8` on empty `Bytes`) also panics. -/
def readVarIntAux : Nat → Nat → List Nat → Option (Nat × List Nat)
  | _, _, [] => none
  | value, pos, b :: rest =>
    let value := (value ||| ((b % 256 &&& SEGMENT_BITS) <<< pos)) % 2 ^ 32
    if (b % 256) &&& CONTINUE_BIT = 0 then some (value, rest)
    else if 32 ≤ pos + 7 then none
    else readVarIntAux value (pos + 7) rest

/-- Source `read_var_int`: returns the decoded value and the unconsumed rest of
the buffer, or `none` when the source would panic. -/
def read_var_int (l : List Nat) : Option (Nat × List Nat) :=
  readVarIntAux 0 0 l

/-- UTF-16 encoding of one Unicode scalar value, as `str::encode_utf16`
produces it: BMP code points are a single unit, supplementary code points
a surrogate pair. -/
def encodeUtf16Char (c : Nat) : List Nat :=
  if c < 0x10000 then [c]
  else [0xD800 + (c - 0x10000) / 0x400, 0xDC00 + (c - 0x10000) % 0x400]

/-- Big-endian byte pair of a `u16` (`u16::to_be_bytes`). -/
def u16be (u : Nat) : List Nat := [u / 256 % 256, u % 256]

/-- Rust `String::from_utf16`: turn a unit sequence back into scalar values,
combining surrogate pairs and failing (`none`) on any lone surrogate. -/
def decodeUtf16 : List Nat → Option (List Nat)
  | [] => some []
  | u :: rest =>
    if 0xD800 ≤ u ∧ u < 0xDC00 then
      match rest with
      | [] => none
      | v :: rest2 =>
        if 0xDC00 ≤ v ∧ v < 0xE000 then
          (decodeUtf16 rest2).map (fun s => (0x10000 + (u - 0xD800) * 0x400 + (v - 0xDC00)) :: s)
        else none
    else if 0xDC00 ≤ u ∧ u < 0xE000 then none
    else (decodeUtf16 rest).map (fun s => u :: s)

/-- The `get_u16` loop of `string16_decode`: read `k` big-endian 16-bit
units, panicking (`none`) when fewer than `2·k` bytes remain; bytes past
the `k` units are left unread. -/
def readU16s : Nat → List Nat → Option (List Nat)
  | 0, _ => some []
  | k + 1, b1 :: b2 :: rest => (readU16s k rest).map (fun us => ((b1 % 256) * 256 + b2 % 256) :: us)
  | _ + 1, _ => none

/-- Source `string16_encode`: an `i16` character count
(`none` models the `i16::try_from(...).expect(...)` panic above 32767)
followed by the big-endian UTF-16 units.  Strings are modelled as lists
of Unicode scalar values. -/
def string16_encode (s : List Nat) : Option (List Nat) :=
  if s.length ≤ 32767 then
    some ([s.length / 256, s.length % 256] ++ (s.flatMap encodeUtf16Char).flatMap u16be)
  else none

/-- Source `string16_decode`: read an `i16` length (negative
lengths panic in `usize::try_from(..).expect(..)`), then that many
big-endian `u16` units, then `String::from_utf16(..).unwrap()`. -/
def string16_decode (l : List Nat) : Option (List Nat × Int) :=
  match l with
  | b1 :: b2 :: rest =>
    let len := getI16 b1 b2
    if len < 0 then none
    else
      match readU16s len.toNat rest with
      | none => none
      | some units => (decodeUtf16 units).map (fun s => (s, len))
  | _ => none

/-- Modelled from the spec: one character's encoding in the external
`mutf8` crate (Java-style modified UTF-8, where U+0000 becomes `C0 80`
and supplementary planes become separately encoded surrogate pairs). -/
def mutf8EncodeChar (c : Nat) : List Nat :=
  if c = 0 then [0xC0, 0x80]
  else if c < 0x80 then [c]
  else if c < 0x800 then [0xC0 ||| c / 0x40, 0x80 ||| (c % 0x40)]
  else if c < 0x10000 then
    [0xE0 ||| c / 0x1000, 0x80 ||| (c / 0x40 % 0x40), 0x80 ||| (c % 0x40)]
  else
    let hi := 0xD800 + (c - 0x10000) / 0x400
    let lo := 0xDC00 + (c - 0x10000) % 0x400
    [0xE0 ||| hi / 0x1000, 0x80 ||| (hi / 0x40 % 0x40), 0x80 ||| (hi % 0x40),
     0xE0 ||| lo / 0x1000, 0x80 ||| (lo / 0x40 % 0x40), 0x80 ||| (lo % 0x40)]

/-- Modelled from the spec: strict decoding of modified UTF-8 bytes into
UTF-16 units (surrogates appear as units and are recombined by
`decodeUtf16`, matching the external `mutf8` crate's decoder).  `none`
models a decode error: a raw NUL byte, a stray continuation byte, a
truncated or overlong sequence, or a 4-byte-UTF-8 leader. -/
def mutf8DecodeUnits : List Nat → Option (List Nat)
  | [] => some []
  | b :: rest =>
    if b = 0 then none
    else if b < 0x80 then (mutf8DecodeUnits rest).map (fun us => b :: us)
    else if b < 0xC0 then none
    else if b < 0xE0 then
      match rest with
      | b2 :: rest2 =>
        if 0x80 ≤ b2 ∧ b2 < 0xC0 then
          let u := (b % 0x20) * 0x40 + b2 % 0x40
          if u = 0 ∨ 0x80 ≤ u then (mutf8DecodeUnits rest2).map (fun us => u :: us)
          else none
        else none
      | _ => none
    else if b < 0xF0 then
      match rest with
      | b2 :: b3 :: rest2 =>
        if (0x80 ≤ b2 ∧ b2 < 0xC0) ∧ (0x80 ≤ b3 ∧ b3 < 0xC0) then
          let u := (b % 0x10) * 0x1000 + (b2 % 0x40) * 0x40 + b3 % 0x40
          if 0x800 ≤ u then (mutf8DecodeUnits rest2).map (fun us => u :: us)
          else none
        else none
      | _ => none
    else none

/-- Source `string8_encode`: the `i16` prefix is
`str.chars().count()` — the CHARACTER count, not the byte length of the
modified-UTF-8 body that follows (`none` models the `expect` panic above
32767 characters). -/
def string8_encode (s : List Nat) : Option (List Nat) :=
  if s.length ≤ 32767 then
    some ([s.length / 256, s.length % 256] ++ s.flatMap mutf8EncodeChar)
  else none

/-- Source `string8_decode`: read an `i16` length, take that many
bytes (`length as usize` sign-extends a negative length to a huge value,
and `copy_to_bytes` panics — `none` — when fewer bytes remain), then
`mutf8::decode(..).unwrap()`. -/
def string8_decode (l : List Nat) : Option (List Nat × Int) :=
  match l with
  | b1 :: b2 :: rest =>
    let len := getI16 b1 b2
    let lenU := i16AsUsize len
    if rest.length < lenU then none
    else
      match mutf8DecodeUnits (rest.take lenU) with
      | none => none
      | some units => (decodeUtf16 units).map (fun s => (s, len))
  | _ => none

/-- The classifier's view of the first read: `buf_raw` is a 1024-byte
zero-initialized buffer, so `Bytes::from(buf_raw.clone())` is the `n`
bytes actually read followed by zero padding up to 1024. -/
def paddedBuf (data : List Nat) : List Nat :=
  data ++ List.replicate (1024 - data.length) 0

/-- Source `buf[i]`: index into the zero-padded 1024-byte buffer. -/
def bufAt (data : List Nat) (i : Nat) : Nat :=
  (paddedBuf data).getD i 0

/-- Everything `handle_client_conn` has computed by the time the
branch on the first read finishes (source lines 54-114): the protocol
tag, the two flags, the bytes written to the client so far, the state of
`buf_raw` (resized in the rule-5 branch) and of `second_stage_buffer`,
and whether the rule-5 second read happened. -/
structure HandshakeResult where
  tag : String
  block_connection_hash_response : Bool
  is_ucs2 : Bool
  clientWrites : List Nat
  bufRaw : List Nat
  secondStage : List Nat
  readSecond : Bool
  deriving Repr, DecidableEq

/-- The guard of rule 1 (source line 62): `read_count > 1 && buf[1] == 0x00
&& buf[0] != 0x00 && buf[0] != 0x02`. -/
def rule1Guard (data : List Nat) : Prop :=
  1 < data.length ∧ bufAt data 1 = 0 ∧ bufAt data 0 ≠ 0 ∧ bufAt data 0 ≠ 2

instance (data : List Nat) : Decidable (rule1Guard data) := by
  unfold rule1Guard; infer_instance

/-- The guard of rule 2 (source line 74): `buf[0] == 0xFE && buf[1] == 0x01`. -/
def rule2Guard (data : List Nat) : Prop :=
  bufAt data 0 = 0xFE ∧ bufAt data 1 = 0x01

instance (data : List Nat) : Decidable (rule2Guard data) := by
  unfold rule2Guard; infer_instance

/-- The guard of rule 3 (source line 77): `buf[0] == 0x02 && buf[1] <= 80
&& buf[1] >= 33`. -/
def rule3Guard (data : List Nat) : Prop :=
  bufAt data 0 = 0x02 ∧ 33 ≤ bufAt data 1 ∧ bufAt data 1 ≤ 80

instance (data : List Nat) : Decidable (rule3Guard data) := by
  unfold rule3Guard; infer_instance

/-- The guard of rule 4 (source line 80): `buf[0] == 0xFE && read_count == 1`. -/
def rule4Guard (data : List Nat) : Prop :=
  bufAt data 0 = 0xFE ∧ data.length = 1

instance (data : List Nat) : Decidable (rule4Guard data) := by
  unfold rule4Guard; infer_instance

/-- The guard of rule 5 (source line 83): `buf[0] == 0x02`. -/
def rule5Guard (data : List Nat) : Prop :=
  bufAt data 0 = 0x02

instance (data : List Nat) : Decidable (rule5Guard data) := by
  unfold rule5Guard; infer_instance

/-- The declared string length of a rule-5 prelude: the big-endian `i16`
at `buf[1..3]` (source line 86). -/
def rule5StrLen (data : List Nat) : Int :=
  getI16 (bufAt data 1) (bufAt data 2)

/-- The rule-5 framing test (source lines 86-88): `str_bytes_length` is
`read_count - 3` (usize), and the framing is UCS-2 iff
`str_bytes_length / 2 == str_length as usize`. -/
def rule5Ucs2 (data : List Nat) : Bool :=
  usizeSub3 data.length / 2 = i16AsUsize (rule5StrLen data)

/-- The branch on the first read of `handle_client_conn` (source lines
47-114), given the first read `data` and the bytes `second` the client
will send next (consumed only by the rule-5 `read_exact`).  `none` models
a panic (`read_var_int` overflow) or an early `?` return (`read_exact`
hitting EOF). -/
def classify (data second : List Nat) : Option HandshakeResult :=
  let n := data.length
  let buf := paddedBuf data
  if rule1Guard data then
    (read_var_int buf).bind fun pr1 =>
      match pr1.2 with
      | [] => none
      | _ :: rest2 =>
        (read_var_int rest2).map fun pr2 =>
          { tag := "N" ++ toString pr2.1, block_connection_hash_response := false,
            is_ucs2 := true, clientWrites := [], bufRaw := buf,
            secondStage := List.replicate 5 0, readSecond := false }
  else if rule2Guard data then
    some { tag := "PreNettyPost39ListPing", block_connection_hash_response := false,
           is_ucs2 := true, clientWrites := [], bufRaw := buf,
           secondStage := List.replicate 5 0, readSecond := false }
  else if rule3Guard data then
    some { tag := "P" ++ toString (bufAt data 1), block_connection_hash_response := false,
           is_ucs2 := true, clientWrites := [], bufRaw := buf,
           secondStage := List.replicate 5 0, readSecond := false }
  else if rule4Guard data then
    some { tag := "PreNettyPre39ListPing", block_connection_hash_response := false,
           is_ucs2 := true, clientWrites := [], bufRaw := buf,
           secondStage := List.replicate 5 0, readSecond := false }
  else if rule5Guard data then
    let ucs2 : Bool := rule5Ucs2 data
    match (if ucs2 then string16_encode [0x2D] else string8_encode [0x2D]) with
    | none => none
    | some enc =>
      if 5 ≤ second.length then
        let sec := second.take 5
        let v : Int := getI32 (sec.getD 1 0) (sec.getD 2 0) (sec.getD 3 0) (sec.getD 4 0)
        some { tag := "P" ++ toString v, block_connection_hash_response := true,
               is_ucs2 := ucs2, clientWrites := 0x02 :: enc, bufRaw := buf.take n,
               secondStage := sec, readSecond := true }
      else none
  else
    some { tag := "Unknown", block_connection_hash_response := false,
           is_ucs2 := true, clientWrites := [], bufRaw := buf,
           secondStage := List.replicate 5 0, readSecond := false }

/-- The bytes `handle_client_conn` writes to the backend before the
bidirectional copy (source lines 132 and 152): the slice
`buf_raw[..read_count]`, then — only when the backend's handshake reply
is being blocked — the 5-byte `second_stage_buffer`. -/
def backendPreludeWrites (data second : List Nat) : Option (List Nat) :=
  (classify data second).map fun r =>
    r.bufRaw.take data.length ++
      (if r.block_connection_hash_response then r.secondStage else [])

/-- The routing lookup (source lines 117-123): `SELECT * FROM
protocol_rules WHERE protocol = ?` returns the first row whose protocol
column matches the tag; its host column (`backend.1`, the second field of
the `(i32, String, String)` row, matching `ProtocolBackendServer`'s
`host` after the id) is used, and a missing row falls back to
`default_server`. -/
def resolve (rules : List (Int × String × String)) (tag default_server : String) : String :=
  match rules.find? (fun row => row.2.2 = tag) with
  | some backend => backend.2.1
  | none => default_server

/-- Backend chosen for a connection: classification then routing lookup
(the lookup runs for every emitted tag, `"Unknown"` included). -/
def chooseBackend (data second : List Nat) (rules : List (Int × String × String))
    (default_server : String) : Option String :=
  (classify data second).map fun r => resolve rules r.tag default_server

/-- The drain-length computation of the blocked handshake response
(source lines 141-148): `str_length * 2` in `i16` arithmetic when UCS-2
(`none` when the product leaves the `i16` range, the overflow panic),
then `as usize` (`none` when the value is negative: the cast sign-extends
to a huge length whose buffer cannot be allocated or read). -/
def drainLen (is_ucs2 : Bool) (str_length : Int) : Option Nat :=
  if is_ucs2 then
    if -0x8000 ≤ str_length * 2 ∧ str_length * 2 < 0x8000 then
      if str_length * 2 < 0 then none else some (str_length * 2).toNat
    else none
  else
    if str_length < 0 then none else some str_length.toNat

/-! ### Supporting lemmas -/

lemma take_paddedBuf (data : List Nat) : (paddedBuf data).take data.length = data := by
  unfold paddedBuf
  exact List.take_left data _

lemma string16_encode_dash : string16_encode [0x2D] = some [0, 1, 0, 0x2D] := by decide

lemma string8_encode_dash : string8_encode [0x2D] = some [0, 1, 0x2D] := by decide

lemma getI16_bounds (b1 b2 : Nat) : -0x8000 ≤ getI16 b1 b2 ∧ getI16 b1 b2 < 0x8000 := by
  simp only [getI16]
  split <;> omega

/-- Rule 1 fires: the classification is determined by the two varint reads. -/
lemma classify_rule1_eq (data second : List Nat) (h1 : rule1Guard data) :
    classify data second =
      (read_var_int (paddedBuf data)).bind fun pr1 =>
        match pr1.2 with
        | [] => none
        | _ :: rest2 =>
          (read_var_int rest2).map fun pr2 =>
            { tag := "N" ++ toString pr2.1, block_connection_hash_response := false,
              is_ucs2 := true, clientWrites := [], bufRaw := paddedBuf data,
              secondStage := List.replicate 5 0, readSecond := false } := by
  simp only [classify, if_pos h1]

/-- Rule 2 fires. -/
lemma classify_rule2_eq (data second : List Nat) (h1 : ¬ rule1Guard data)
    (h2 : rule2Guard data) :
    classify data second =
      some { tag := "PreNettyPost39ListPing", block_connection_hash_response := false,
             is_ucs2 := true, clientWrites := [], bufRaw := paddedBuf data,
             secondStage := List.replicate 5 0, readSecond := false } := by
  simp only [classify, if_neg h1, if_pos h2]

/-- Rule 3 fires. -/
lemma classify_rule3_eq (data second : List Nat) (h1 : ¬ rule1Guard data)
    (h2 : ¬ rule2Guard data) (h3 : rule3Guard data) :
    classify data second =
      some { tag := "P" ++ toString (bufAt data 1), block_connection_hash_response := false,
             is_ucs2 := true, clientWrites := [], bufRaw := paddedBuf data,
             secondStage := List.replicate 5 0, readSecond := false } := by
  simp only [classify, if_neg h1, if_neg h2, if_pos h3]

/-- Rule 4 fires. -/
lemma classify_rule4_eq (data second : List Nat) (h1 : ¬ rule1Guard data)
    (h2 : ¬ rule2Guard data) (h3 : ¬ rule3Guard data) (h4 : rule4Guard data) :
    classify data second =
      some { tag := "PreNettyPre39ListPing", block_connection_hash_response := false,
             is_ucs2 := true, clientWrites := [], bufRaw := paddedBuf data,
             secondStage := List.replicate 5 0, readSecond := false } := by
  simp only [classify, if_neg h1, if_neg h2, if_neg h3, if_pos h4]

/-- Rule 5 fires (with the 5-byte follow-up available): the synthetic
reply, the deferred-login capture and the truncated `buf_raw`. -/
lemma classify_rule5_eq (data second : List Nat) (h1 : ¬ rule1Guard data)
    (h2 : ¬ rule2Guard data) (h3 : ¬ rule3Guard data) (h4 : ¬ rule4Guard data)
    (h5 : rule5Guard data) (hsec : second.length = 5) :
    classify data second =
      some { tag := "P" ++ toString
               (getI32 (second.getD 1 0) (second.getD 2 0) (second.getD 3 0) (second.getD 4 0)),
             block_connection_hash_response := true,
             is_ucs2 := rule5Ucs2 data,
             clientWrites := 0x02 :: (if rule5Ucs2 data then [0, 1, 0, 0x2D] else [0, 1, 0x2D]),
             bufRaw := data, secondStage := second, readSecond := true } := by
  have htake : second.take 5 = second := by
    rw [← hsec]; exact List.take_length second
  have hlen : 5 ≤ second.length := by omega
  simp only [classify, if_neg h1, if_neg h2, if_neg h3, if_neg h4, if_pos h5]
  cases hu : rule5Ucs2 data <;>
    simp [hu, string16_encode_dash, string8_encode_dash, if_pos hlen, htake, take_paddedBuf]

/-- No rule fires: the "Unknown" tag. -/
lemma classify_unknown_eq (data second : List Nat) (h1 : ¬ rule1Guard data)
    (h2 : ¬ rule2Guard data) (h3 : ¬ rule3Guard data) (h4 : ¬ rule4Guard data)
    (h5 : ¬ rule5Guard data) :
    classify data second =
      some { tag := "Unknown", block_connection_hash_response := false,
             is_ucs2 := true, clientWrites := [], bufRaw := paddedBuf data,
             secondStage := List.replicate 5 0, readSecond := false } := by
  simp only [classify, if_neg h1, if_neg h2, if_neg h3, if_neg h4, if_neg h5]

/-! ### Claim theorems -/

/-- C1: for every accepted handshake, the bytes the proxy writes to the
backend before the bidirectional copy are exactly the prelude (the first
`n` bytes read from the client) followed by the 5-byte deferred-login
buffer when `suppress_backend_handshake` is true and by nothing
otherwise; and the deferred-login read happens exactly when the flag is
set. -/
theorem prelude_faithfulness (data second : List Nat) (r : HandshakeResult)
    (hsec : second.length = 5) (h : classify data second = some r) :
    backendPreludeWrites data second =
      some (data ++ (if r.block_connection_hash_response then second else [])) ∧
    (r.block_connection_hash_response = true ↔ r.readSecond = true) := by
  have hw : backendPreludeWrites data second =
      some (r.bufRaw.take data.length ++
        (if r.block_connection_hash_response then r.secondStage else [])) := by
    unfold backendPreludeWrites
    rw [h]
    rfl
  rw [hw]
  by_cases h1 : rule1Guard data
  · rw [classify_rule1_eq data second h1, Option.bind_eq_some] at h
    obtain ⟨pr1, hv, h⟩ := h
    obtain ⟨v1, rest1⟩ := pr1
    cases rest1 with
    | nil => simp at h
    | cons b rest2 =>
      simp only [Option.map_eq_some'] at h
      obtain ⟨pr2, hv2, hr⟩ := h
      subst hr
      simp [take_paddedBuf]
  · by_cases h2 : rule2Guard data
    · have hc := classify_rule2_eq data second h1 h2
      rw [h] at hc
      injection hc with hr
      subst hr
      simp [take_paddedBuf]
    · by_cases h3 : rule3Guard data
      · have hc := classify_rule3_eq data second h1 h2 h3
        rw [h] at hc
        injection hc with hr
        subst hr
        simp [take_paddedBuf]
      · by_cases h4 : rule4Guard data
        · have hc := classify_rule4_eq data second h1 h2 h3 h4
          rw [h] at hc
          injection hc with hr
          subst hr
          simp [take_paddedBuf]
        · by_cases h5 : rule5Guard data
          · have hc := classify_rule5_eq data second h1 h2 h3 h4 h5 hsec
            rw [h] at hc
            injection hc with hr
            subst hr
            simp [List.take_length]
          · have hc := classify_unknown_eq data second h1 h2 h3 h4 h5
            rw [h] at hc
            injection hc with hr
            subst hr
            simp [take_paddedBuf]

/-- C1 witness: the rule-2 ping `FE 01` (no suppression) evaluated
concretely. -/
theorem prelude_faithfulness_witness :
    backendPreludeWrites [0xFE, 0x01] [9, 8, 7, 6, 5] = some ([0xFE, 0x01] ++ []) := by
  have hc : classify [0xFE, 0x01] [9, 8, 7, 6, 5] =
      some { tag := "PreNettyPost39ListPing", block_connection_hash_response := false,
             is_ucs2 := true, clientWrites := [], bufRaw := paddedBuf [0xFE, 0x01],
             secondStage := List.replicate 5 0, readSecond := false } :=
    classify_rule2_eq _ _ (by decide) (by decide)
  have h := prelude_faithfulness [0xFE, 0x01] [9, 8, 7, 6, 5] _ (by decide) hc
  simpa using h.1

/-- C2 counterexample: on the 6-byte rule-5 prelude `02 00 01 41 41 41`
the declared length is 1 and the payload length is 3 ≠ 2·1, yet the
source's integer division `3 / 2 == 1` classifies the framing as UCS-2 —
refuting "UCS-2 exactly when the payload length equals 2·len". -/
theorem framing_counterexample :
    (classify [0x02, 0x00, 0x01, 0x41, 0x41, 0x41] [1, 0, 0, 0, 17]).map
        (fun q => q.is_ucs2) = some true ∧
    [0x02, 0x00, 0x01, 0x41, 0x41, 0x41].length - 3 ≠ 2 * 1 := by
  constructor
  · rw [classify_rule5_eq _ _ (by decide) (by decide) (by decide) (by decide)
      (by decide) (by decide)]
    simp
    decide
  · decide

/-- C2 (amended): in the rule-5 branch the framing is UCS-2 exactly when
`⌊(n − 3) / 2⌋` equals the declared length `len` — that is, when `len` is
non-negative and the payload length `n − 3` is `2·len` or `2·len + 1` —
and modified UTF-8 in every other case. -/
theorem framing_disambiguation (data second : List Nat)
    (h1 : ¬ rule1Guard data) (h2 : ¬ rule2Guard data) (h3 : ¬ rule3Guard data)
    (h4 : ¬ rule4Guard data) (h5 : rule5Guard data)
    (hn : 3 ≤ data.length) (hn2 : data.length ≤ 1024) (hsec : second.length = 5) :
    (classify data second).map (fun q => q.is_ucs2) = some true ↔
      0 ≤ rule5StrLen data ∧
        (data.length - 3 = 2 * (rule5StrLen data).toNat ∨
         data.length - 3 = 2 * (rule5StrLen data).toNat + 1) := by
  rw [classify_rule5_eq data second h1 h2 h3 h4 h5 hsec]
  simp only [Option.map_some', Option.some.injEq]
  show rule5Ucs2 data = true ↔ _
  unfold rule5Ucs2
  rw [decide_eq_true_iff]
  have hb := getI16_bounds (bufAt data 1) (bufAt data 2)
  unfold rule5StrLen at *
  unfold usizeSub3 i16AsUsize
  rw [if_pos hn]
  split_ifs <;> omega

/-- C2 witness: a 7-byte rule-5 prelude with `len = 2` and payload 4. -/
theorem framing_disambiguation_witness :
    (classify [0x02, 0x00, 0x02, 65, 65, 65, 65] [1, 0, 0, 0, 17]).map
        (fun q => q.is_ucs2) = some true ↔
      0 ≤ rule5StrLen [0x02, 0x00, 0x02, 65, 65, 65, 65] ∧
        ([0x02, 0x00, 0x02, 65, 65, 65, 65].length - 3 =
            2 * (rule5StrLen [0x02, 0x00, 0x02, 65, 65, 65, 65]).toNat ∨
         [0x02, 0x00, 0x02, 65, 65, 65, 65].length - 3 =
            2 * (rule5StrLen [0x02, 0x00, 0x02, 65, 65, 65, 65]).toNat + 1) :=
  framing_disambiguation [0x02, 0x00, 0x02, 65, 65, 65, 65] [1, 0, 0, 0, 17]
    (by decide) (by decide) (by decide) (by decide) (by decide) (by decide) (by decide)
    (by decide)

/-- C3 counterexample: rule 1 fires on `10 00 80 80 80 80 80` (7 bytes,
non-empty, ≤ 1024) and the protocol varint meets five continuation
bytes, so `read_var_int` panics ("VarInt is too big") and classification
aborts — refuting "the varint decoding inside rule 1 never aborts the
classification". -/
theorem classifier_totality_counterexample :
    classify [0x10, 0x00, 0x80, 0x80, 0x80, 0x80, 0x80] [0, 0, 0, 0, 0] = none := by
  decide

/-- C3 (amended): for every non-empty byte string of length ≤ 1024 the
classifier returns some tag, except that when rule 1 fires the protocol
varint can abort with the "VarInt is too big" panic; the additional
5-byte read happens exactly in the rule-5 branch. -/
theorem classifier_totality (data second : List Nat)
    (_hne : 1 ≤ data.length) (_hlen : data.length ≤ 1024) (hsec : second.length = 5) :
    (classify data second = none → rule1Guard data) ∧
    (∀ r, classify data second = some r →
      (r.readSecond = true ↔
        (¬ rule1Guard data ∧ ¬ rule2Guard data ∧ ¬ rule3Guard data ∧
          ¬ rule4Guard data ∧ rule5Guard data))) := by
  by_cases h1 : rule1Guard data
  · refine ⟨fun _ => h1, fun r h => ?_⟩
    rw [classify_rule1_eq data second h1, Option.bind_eq_some] at h
    obtain ⟨pr1, hv, h⟩ := h
    obtain ⟨v1, rest1⟩ := pr1
    cases rest1 with
    | nil => simp at h
    | cons b rest2 =>
      simp only [Option.map_eq_some'] at h
      obtain ⟨pr2, hv2, hr⟩ := h
      subst hr
      simp [h1]
  · by_cases h2 : rule2Guard data
    · rw [classify_rule2_eq data second h1 h2]
      refine ⟨by simp, fun r h => ?_⟩
      injection h with hr
      subst hr
      simp [h2]
    · by_cases h3 : rule3Guard data
      · rw [classify_rule3_eq data second h1 h2 h3]
        refine ⟨by simp, fun r h => ?_⟩
        injection h with hr
        subst hr
        simp [h3]
      · by_cases h4 : rule4Guard data
        · rw [classify_rule4_eq data second h1 h2 h3 h4]
          refine ⟨by simp, fun r h => ?_⟩
          injection h with hr
          subst hr
          simp [h4]
        · by_cases h5 : rule5Guard data
          · rw [classify_rule5_eq data second h1 h2 h3 h4 h5 hsec]
            refine ⟨by simp, fun r h => ?_⟩
            injection h with hr
            subst hr
            simp [h1, h2, h3, h4, h5]
          · rw [classify_unknown_eq data second h1 h2 h3 h4 h5]
            refine ⟨by simp, fun r h => ?_⟩
            injection h with hr
            subst hr
            simp [h5]

/-- C3 witness: the rule-5 prelude `02 00 00` instantiates the totality
theorem — its classification result has `readSecond` set and all guards
up to rule 5 refuted. -/
theorem classifier_totality_witness :
    ({ tag := "P17", block_connection_hash_response := true, is_ucs2 := true,
       clientWrites := [0x02, 0, 1, 0, 0x2D], bufRaw := [0x02, 0x00, 0x00],
       secondStage := [1, 0, 0, 0, 17], readSecond := true } : HandshakeResult).readSecond =
        true ↔
      (¬ rule1Guard [0x02, 0x00, 0x00] ∧ ¬ rule2Guard [0x02, 0x00, 0x00] ∧
        ¬ rule3Guard [0x02, 0x00, 0x00] ∧ ¬ rule4Guard [0x02, 0x00, 0x00] ∧
        rule5Guard [0x02, 0x00, 0x00]) :=
  (classifier_totality [0x02, 0x00, 0x00] [1, 0, 0, 0, 17] (by decide) (by decide)
      (by decide)).2 _ (by decide)

/-- C5 counterexample: on the spec's 18 example bytes the classifier does
NOT emit `"N754"`: after the packet-length varint consumes the single
byte `0x10` and one byte is skipped, the protocol varint reads the `0x00`
at index 2 and stops at value 0. -/
theorem newgen_scenario_counterexample :
    (classify [0x10, 0x00, 0x00, 0xD2, 0x04, 0x09, 0x6C, 0x6F, 0x63, 0x61, 0x6C, 0x68,
        0x6F, 0x73, 0x74, 0x63, 0xDD, 0x01] [0, 0, 0, 0, 0]).map (fun q => q.tag) ≠
      some "N754" := by
  decide

/-- C5 (amended): on the 18 bytes `10 00 00 D2 04 09 6C 6F 63 61 6C 68 6F
73 74 63 DD 01` rule 1 matches (`b1 = 0x00`, `b0 = 0x10`), and the
classifier emits `"N0"`: the packet-length varint is `0x10`, one byte is
skipped, and the protocol varint reads `0x00`, giving 0. -/
theorem newgen_scenario :
    rule1Guard [0x10, 0x00, 0x00, 0xD2, 0x04, 0x09, 0x6C, 0x6F, 0x63, 0x61, 0x6C, 0x68,
        0x6F, 0x73, 0x74, 0x63, 0xDD, 0x01] ∧
    (classify [0x10, 0x00, 0x00, 0xD2, 0x04, 0x09, 0x6C, 0x6F, 0x63, 0x61, 0x6C, 0x68,
        0x6F, 0x73, 0x74, 0x63, 0xDD, 0x01] [0, 0, 0, 0, 0]).map (fun q => q.tag) =
      some "N0" := by
  constructor
  · decide
  · decide

/-- C6: whenever rule 5 fires, the bytes written to the client are
exactly `0x02` followed by the encoding of the one-character string `"-"`
in the framing just determined; in the UCS-2 case this is exactly
`02 00 01 00 2D`. -/
theorem synthetic_reply (data second : List Nat)
    (h1 : ¬ rule1Guard data) (h2 : ¬ rule2Guard data) (h3 : ¬ rule3Guard data)
    (h4 : ¬ rule4Guard data) (h5 : rule5Guard data) (hsec : second.length = 5) :
    ((classify data second).map (fun q => q.clientWrites) =
      if rule5Ucs2 data then (string16_encode [0x2D]).map (fun e => 0x02 :: e)
      else (string8_encode [0x2D]).map (fun e => 0x02 :: e)) ∧
    (rule5Ucs2 data = true →
      (classify data second).map (fun q => q.clientWrites) =
        some [0x02, 0x00, 0x01, 0x00, 0x2D]) := by
  rw [classify_rule5_eq data second h1 h2 h3 h4 h5 hsec]
  constructor
  · cases hu : rule5Ucs2 data <;>
      simp [hu, string16_encode_dash, string8_encode_dash]
  · intro hu
    simp [hu]

/-- C6 witness: the spec's old-handshake UCS-2 scenario
`02 00 04 00 68 00 69 00 21 00 21`. -/
theorem synthetic_reply_witness :
    ((classify [0x02, 0x00, 0x04, 0x00, 0x68, 0x00, 0x69, 0x00, 0x21, 0x00, 0x21]
        [0x01, 0, 0, 0, 0x11]).map (fun q => q.clientWrites) =
      if rule5Ucs2 [0x02, 0x00, 0x04, 0x00, 0x68, 0x00, 0x69, 0x00, 0x21, 0x00, 0x21] then
        (string16_encode [0x2D]).map (fun e => 0x02 :: e)
      else (string8_encode [0x2D]).map (fun e => 0x02 :: e)) ∧
    (rule5Ucs2 [0x02, 0x00, 0x04, 0x00, 0x68, 0x00, 0x69, 0x00, 0x21, 0x00, 0x21] = true →
      (classify [0x02, 0x00, 0x04, 0x00, 0x68, 0x00, 0x69, 0x00, 0x21, 0x00, 0x21]
        [0x01, 0, 0, 0, 0x11]).map (fun q => q.clientWrites) =
        some [0x02, 0x00, 0x01, 0x00, 0x2D]) :=
  synthetic_reply [0x02, 0x00, 0x04, 0x00, 0x68, 0x00, 0x69, 0x00, 0x21, 0x00, 0x21]
    [0x01, 0, 0, 0, 0x11] (by decide) (by decide) (by decide) (by decide) (by decide)
    (by decide)

/-- C7: for every tag (the `"Unknown"` tag included) the resolver
consults the routing table: a present mapping is returned, a missing one
falls back to the configured default, and the lookup is performed for
every classification result. -/
theorem route_resolution (rules : List (Int × String × String))
    (tag default_server : String) :
    (∀ row, rules.find? (fun q => q.2.2 = tag) = some row →
        resolve rules tag default_server = row.2.1) ∧
    (rules.find? (fun q => q.2.2 = tag) = none →
        resolve rules tag default_server = default_server) ∧
    (∀ data second q, classify data second = some q →
        chooseBackend data second rules default_server =
          some (resolve rules q.tag default_server)) := by
  refine ⟨fun row h => ?_, fun h => ?_, fun data second q h => ?_⟩
  · unfold resolve
    rw [h]
  · unfold resolve
    rw [h]
  · unfold chooseBackend
    rw [h]
    rfl

/-- C7 witness: a one-row table hit, the `"Unknown"` tag falling back to
the default, and the lookup being reached on an `"Unknown"`
classification. -/
theorem route_resolution_witness :
    resolve [(1, "backend-a", "N754")] "N754" "fallback" = "backend-a" ∧
    resolve [(1, "backend-a", "N754")] "Unknown" "fallback" = "fallback" ∧
    chooseBackend [0xFF, 0xFF, 0xFF] [0, 0, 0, 0, 0] [(1, "backend-a", "N754")] "fallback" =
      some (resolve [(1, "backend-a", "N754")] "Unknown" "fallback") :=
  ⟨(route_resolution [(1, "backend-a", "N754")] "N754" "fallback").1
      (1, "backend-a", "N754") (by decide),
   (route_resolution [(1, "backend-a", "N754")] "Unknown" "fallback").2.1 (by decide),
   (route_resolution [(1, "backend-a", "N754")] "Unknown" "fallback").2.2
      [0xFF, 0xFF, 0xFF] [0, 0, 0, 0, 0] _
      (classify_unknown_eq _ _ (by decide) (by decide) (by decide) (by decide) (by decide))⟩

/-- C9: classification inspects the fixed 1024-byte zero-initialized
buffer, so every position at index ≥ n reads 0x00 and no guard indexes
out of bounds; a single `0xFE` byte does not satisfy rule 2 (it takes
rule 4), and an empty read classifies as `"Unknown"` without panicking. -/
theorem zero_padded_buffer (data second : List Nat) (hlen : data.length ≤ 1024) :
    (paddedBuf data).length = 1024 ∧
    (∀ i, data.length ≤ i → bufAt data i = 0) ∧
    (classify [0xFE] second).map (fun q => q.tag) = some "PreNettyPre39ListPing" ∧
    (classify [] second).map (fun q => q.tag) = some "Unknown" := by
  refine ⟨?_, fun i hi => ?_, ?_, ?_⟩
  · simp [paddedBuf]
    omega
  · unfold bufAt paddedBuf
    rw [List.getD_eq_getElem?_getD, List.getElem?_append_right hi]
    rcases Nat.lt_or_ge (i - data.length) (1024 - data.length) with hc | hc
    · simp [List.getElem?_replicate, hc]
    · rw [List.getElem?_eq_none (by simpa using hc)]
      rfl
  · rw [classify_rule4_eq [0xFE] second (by decide) (by decide) (by decide) (by decide)]
    rfl
  · rw [classify_unknown_eq [] second (by decide) (by decide) (by decide) (by decide)
      (by decide)]
    rfl

/-- C9 witness: a 3-byte read leaves index 7 reading zero. -/
theorem zero_padded_buffer_witness : bufAt [1, 2, 3] 7 = 0 :=
  (zero_padded_buffer [1, 2, 3] [0, 0, 0, 0, 0] (by decide)).2.1 7 (by decide)

/-- C10: the drain length for the blocked backend reply is `str_length`
doubled in 16-bit signed arithmetic under UCS-2 framing and `str_length`
itself otherwise, converted to `usize`; it is well-defined exactly for
`0 ≤ str_length ≤ 16383` in the UCS-2 case and `0 ≤ str_length`
otherwise (a larger value overflows the `i16` product, a negative one
converts to a huge unsigned length), and then equals `2·str_length`
resp. `str_length`. -/
theorem drain_length_domain (is_ucs2 : Bool) (s : Int)
    (hlo : -0x8000 ≤ s) (hhi : s < 0x8000) :
    ((drainLen is_ucs2 s).isSome = true ↔
      (0 ≤ s ∧ (is_ucs2 = true → s ≤ 16383))) ∧
    (0 ≤ s → (is_ucs2 = true → s ≤ 16383) →
      drainLen is_ucs2 s = some (if is_ucs2 then 2 * s.toNat else s.toNat)) := by
  cases is_ucs2 with
  | false =>
    refine ⟨?_, fun hs _ => ?_⟩
    · unfold drainLen
      split_ifs <;> simp_all
    · unfold drainLen
      simp only [Bool.false_eq_true, if_false]
      rw [if_neg (by omega)]
  | true =>
    refine ⟨?_, fun hs hb => ?_⟩
    · unfold drainLen
      split_ifs <;> simp_all <;> omega
    · have hb' := hb rfl
      unfold drainLen
      simp only [if_true]
      rw [if_pos (by constructor <;> omega), if_neg (by omega)]
      simp only [if_true, Option.some.injEq]
      omega

/-- C10 witness: the extreme well-defined UCS-2 value 16383 and the
first overflowing one, 16384. -/
theorem drain_length_domain_witness :
    ((drainLen true 16383).isSome = true ↔
      (0 ≤ (16383 : Int) ∧ (true = true → (16383 : Int) ≤ 16383))) ∧
    ((drainLen true 16384).isSome = true ↔
      (0 ≤ (16384 : Int) ∧ (true = true → (16384 : Int) ≤ 16383))) :=
  ⟨(drain_length_domain true 16383 (by decide) (by decide)).1,
   (drain_length_domain true 16384 (by decide) (by decide)).1⟩

/-! ### String16 round trip (C8) -/

/-- A string of BMP non-surrogate scalar values encodes to itself under
UTF-16: one unit per character. -/
lemma encodeUtf16_bmp (s : List Nat) (h : ∀ c ∈ s, c < 0x10000) :
    s.flatMap encodeUtf16Char = s := by
  induction s with
  | nil => rfl
  | cons c cs ih =>
    have hc := h c (List.mem_cons_self c cs)
    rw [List.flatMap_cons, encodeUtf16Char, if_pos hc,
      ih (fun x hx => h x (List.mem_cons_of_mem c hx))]
    rfl

/-- Reading back `s.length` big-endian 16-bit units from the flattened
byte pairs of `s` recovers `s`. -/
lemma readU16s_flat (s : List Nat) (h : ∀ c ∈ s, c < 0x10000) :
    readU16s s.length (s.flatMap u16be) = some s := by
  induction s with
  | nil => rfl
  | cons c cs ih =>
    have hc := h c (List.mem_cons_self c cs)
    rw [List.flatMap_cons]
    show readU16s (cs.length + 1) (c / 256 % 256 :: c % 256 :: cs.flatMap u16be) = _
    rw [readU16s, ih (fun x hx => h x (List.mem_cons_of_mem c hx))]
    simp only [Option.map_some', Option.some.injEq, List.cons.injEq]
    exact ⟨by omega, trivial⟩

/-- Decoding `from_utf16` is the identity on unit sequences free of surrogates. -/
lemma decodeUtf16_id (s : List Nat) (h : ∀ c ∈ s, c < 0xD800 ∨ 0xE000 ≤ c) :
    decodeUtf16 s = some s := by
  induction s with
  | nil => rfl
  | cons c cs ih =>
    have hc := h c (List.mem_cons_self c cs)
    have ih' := ih (fun x hx => h x (List.mem_cons_of_mem c hx))
    rw [decodeUtf16.eq_def]
    simp only
    rw [if_neg (by omega), if_neg (by omega), ih']
    rfl

lemma getI16_of_len (L : Nat) (h : L ≤ 32767) : getI16 (L / 256) (L % 256) = (L : Int) := by
  simp only [getI16]
  have hu : L / 256 % 256 * 256 + L % 256 % 256 = L := by omega
  rw [hu, if_pos (by omega)]

/-- C8: for every string of at most 32767 characters consisting only of
BMP (non-surrogate) code points, `string16_decode` applied to the output
of `string16_encode` returns the string together with the declared
code-unit count. -/
theorem string16_roundtrip (s : List Nat) (hlen : s.length ≤ 32767)
    (hbmp : ∀ c ∈ s, c < 0x10000 ∧ (c < 0xD800 ∨ 0xE000 ≤ c)) :
    ∃ e, string16_encode s = some e ∧ string16_decode e = some (s, (s.length : Int)) := by
  have hsz : ∀ c ∈ s, c < 0x10000 := fun c hc => (hbmp c hc).1
  have hsur : ∀ c ∈ s, c < 0xD800 ∨ 0xE000 ≤ c := fun c hc => (hbmp c hc).2
  refine ⟨[s.length / 256, s.length % 256] ++ s.flatMap u16be, ?_, ?_⟩
  · unfold string16_encode
    rw [if_pos hlen, encodeUtf16_bmp s hsz]
  · show string16_decode (s.length / 256 :: s.length % 256 :: s.flatMap u16be) = _
    unfold string16_decode
    simp only [getI16_of_len s.length hlen]
    rw [if_neg (by omega)]
    have htn : ((s.length : Int)).toNat = s.length := Int.toNat_natCast s.length
    rw [htn, readU16s_flat s hsz]
    show (decodeUtf16 s).map (fun q => (q, ((s.length : Nat) : Int))) = _
    rw [decodeUtf16_id s hsur]
    rfl

/-- C8 witness: the two-character string `"Hi"`. -/
theorem string16_roundtrip_witness :
    ∃ e, string16_encode [0x48, 0x69] = some e ∧
      string16_decode e = some ([0x48, 0x69], ([0x48, 0x69].length : Int)) :=
  string16_roundtrip [0x48, 0x69] (by decide) (by decide)

/-- C4 (code bug): `string8_encode`'s `i16` prefix is the character
count, not the byte length of the modified-UTF-8 body.  On the
one-character string U+00E9 ("é") the body is the two bytes `C3 A9` but
the prefix is 1, so `string8_decode` reads back only `C3` — a truncated
sequence — and fails (`unwrap` panics) instead of returning the string:
the round trip the spec requires is broken. -/
theorem string8_prefix_bug :
    string8_encode [0xE9] = some [0, 1, 0xC3, 0xA9] ∧
    string8_decode [0, 1, 0xC3, 0xA9] = none ∧
    string8_decode [0, 2, 0xC3, 0xA9] = some ([0xE9], 2) := by
  refine ⟨by decide, by decide, by decide⟩

end Magma
